import Mathlib

/-!
Verification of the drone agent's safety-and-navigation decision core.

The definitions below are a shallow embedding of the Python sources:
  * `agent/decision_maker.py` (`DecisionMaker`),
  * `agent/core.py` (`DroneIntelligentAgent`),
  * `tools/slom.py` (`SlomTool`).

Modelling conventions:
  * Python floats are modelled by `ℚ`; every comparison of the form
    `(expr) ** 0.5 <op> c` in the source is modelled by the boolean helpers
    `sqrtGtB` / `sqrtLtB` applied to the radicand, and the lemmas
    `sqrtGtB_iff`, `sqrtGtB_false_iff`, `sqrtLtB_iff` prove these helpers
    agree with the real square root.
  * Python dict lookups `d.get(k, default)` are modelled by `Option`
    fields read with `Option.getD`.
  * The avoidance-direction dict `{x: a/√s, y: b/√s, z: c/√s}` is kept in
    exact form as the numerators together with the radicand `s`
    (structure `AvoidDir`); theorems interpret it over `ℝ`.
  * Log statements, timestamps, memory writes and the `safety_level`
    bookkeeping of `SlomTool` are side effects with no influence on the
    returned decisions and are elided.
-/

namespace DroneAgent

/-- `sqrtGtB s t` models the Python comparison `s ** 0.5 > t`
(the source compares a computed distance, whose radicand is `s`,
against a threshold `t`). -/
def sqrtGtB (s t : ℚ) : Bool :=
  decide (t < 0) || decide (t ^ 2 < s)

/-- `sqrtLtB s t` models the Python comparison `s ** 0.5 < t`. -/
def sqrtLtB (s t : ℚ) : Bool :=
  decide (0 < t) && decide (s < t ^ 2)

/-- Faithfulness of `sqrtGtB`: it decides `t < √s`. -/
theorem sqrtGtB_iff (s t : ℚ) : sqrtGtB s t = true ↔ (t : ℝ) < Real.sqrt (s : ℝ) := by
  unfold sqrtGtB
  rcases lt_or_le t 0 with h | h
  · have ht0 : (t : ℝ) < 0 := by exact_mod_cast h
    constructor
    · intro _
      exact lt_of_lt_of_le ht0 (Real.sqrt_nonneg _)
    · intro _
      exact Bool.or_eq_true_iff.mpr (Or.inl (decide_eq_true h))
  · have ht : (0 : ℝ) ≤ (t : ℝ) := by exact_mod_cast h
    rw [Real.lt_sqrt ht]
    constructor
    · intro hb
      rcases Bool.or_eq_true_iff.mp hb with h1 | h1
      · exact absurd (of_decide_eq_true h1) (not_lt.mpr h)
      · exact_mod_cast of_decide_eq_true h1
    · intro hr
      exact Bool.or_eq_true_iff.mpr (Or.inr (decide_eq_true (by exact_mod_cast hr)))

/-- Faithfulness of `sqrtGtB`, negative form: `sqrtGtB s t = false` iff `√s ≤ t`. -/
theorem sqrtGtB_false_iff (s t : ℚ) : sqrtGtB s t = false ↔ Real.sqrt (s : ℝ) ≤ (t : ℝ) := by
  rw [← not_lt, ← sqrtGtB_iff s t]
  cases h : sqrtGtB s t <;> simp [h]

/-- Faithfulness of `sqrtLtB`: it decides `√s < t`. -/
theorem sqrtLtB_iff (s t : ℚ) : sqrtLtB s t = true ↔ Real.sqrt (s : ℝ) < (t : ℝ) := by
  unfold sqrtLtB
  rcases le_or_lt t 0 with h | h
  · have ht : (t : ℝ) ≤ 0 := by exact_mod_cast h
    constructor
    · intro hb
      have h1 := (Bool.and_eq_true_iff.mp hb).1
      exact absurd (of_decide_eq_true h1) (not_lt.mpr h)
    · intro hr
      exact absurd hr (not_lt.mpr (le_trans ht (Real.sqrt_nonneg _)))
  · have ht : (0 : ℝ) < (t : ℝ) := by exact_mod_cast h
    rw [Real.sqrt_lt' ht]
    constructor
    · intro hb
      have h2 := (Bool.and_eq_true_iff.mp hb).2
      exact_mod_cast of_decide_eq_true h2
    · intro hr
      apply Bool.and_eq_true_iff.mpr
      exact ⟨decide_eq_true h, decide_eq_true (by exact_mod_cast hr)⟩

/-- A position dict `{"x": .., "y": .., "z": ..}`; keys may be absent. -/
structure Pos where
  x : Option ℚ
  y : Option ℚ
  z : Option ℚ
deriving DecidableEq

/-- `position.get("x", 0)` -/
def Pos.getX (p : Pos) : ℚ := p.x.getD 0

/-- `position.get("y", 0)` -/
def Pos.getY (p : Pos) : ℚ := p.y.getD 0

/-- `position.get("z", 0)` -/
def Pos.getZ (p : Pos) : ℚ := p.z.getD 0

/-- The default position dict `{"x": 0, "y": 0, "z": 0}` used by
`decision_maker._navigate_mission` and `slom.check_emergency`. -/
def posZero : Pos := ⟨some 0, some 0, some 0⟩

/-- The telemetry dict fields read by the decision core; absent keys are `none`. -/
structure Telemetry where
  position : Option Pos
  battery : Option ℚ
  signal_strength : Option ℚ
  wind_speed : Option ℚ
  obstacle_distance : Option ℚ
  temperature : Option ℚ
deriving DecidableEq

/-- The empty telemetry dict `{}` (default of `perception.get("telemetry", {})`). -/
def emptyTelemetry : Telemetry := ⟨none, none, none, none, none, none⟩

/-- An obstacle dict as consumed by `DecisionMaker._handle_obstacles`. -/
structure ObstacleP where
  distance : Option ℚ
  x : Option ℚ
  y : Option ℚ
  z : Option ℚ
deriving DecidableEq

/-- A waypoint dict as consumed by `DecisionMaker._navigate_mission`. -/
structure Waypoint where
  x : Option ℚ
  y : Option ℚ
  z : Option ℚ
  speed : Option ℚ
deriving DecidableEq

/-- Exact representation of the avoidance-direction dict
`{"x": nx/√s, "y": ny/√s, "z": nz/√s}` returned by
`DecisionMaker._calculate_avoidance_direction`: numerators plus the
radicand `s` of the common denominator (`s = 1` in the degenerate branch,
so that the dict there is exactly `{"x": 1, "y": 0, "z": 0}`). -/
structure AvoidDir where
  nx : ℚ
  ny : ℚ
  nz : ℚ
  s : ℚ
deriving DecidableEq

/-- Values stored in a decision's `params` dict. -/
inductive ParamVal where
  | num (q : ℚ)
  | dir (d : AvoidDir)
  | wp (w : Waypoint)
deriving DecidableEq

/-- A decision dict `{"command": .., "params": .., "reason": .., "priority": ..}`.
A missing `params` key is modelled as `[]` (Python later reads it with
`decision.get("params", {})`).  Dynamic parts of `reason` f-strings are elided. -/
structure Decision where
  command : String
  params : List (String × ParamVal)
  reason : String
  priority : String
deriving DecidableEq

/-- The perception dict: the keys the decision core reads.  `obstacles = none`
models the key being absent (`"obstacles" in perception` is false). -/
structure Perception where
  telemetry : Option Telemetry
  obstacles : Option (List ObstacleP)
deriving DecidableEq

/-- `perception.get("telemetry", {})` -/
def getTelemetry (p : Perception) : Telemetry := p.telemetry.getD emptyTelemetry

/-- `AgentState` enum of `agent/core.py`. -/
inductive AgentState where
  | initializing
  | ready
  | flying
  | landing
  | emergency
  | learning
  | updating
  | shutdown
deriving DecidableEq

/-- `MissionParams` dataclass of `agent/core.py` (the `emergency_protocols`
dict is unused by the modelled code and elided). -/
structure MissionParams where
  name : String
  mission_id : String
  waypoints : List Waypoint
  altitude : ℚ
  speed : ℚ
  max_distance : ℚ
  data_collection : Bool
  learning_enabled : Bool
deriving DecidableEq

namespace DecisionMaker

/-- A safety rule as built by `DecisionMaker._init_safety_rules`:
`{"name": .., "condition": <lambda>, "action": <decision dict>, "priority": <int>}`. -/
structure SafetyRule where
  name : String
  condition : Telemetry → Bool
  action : Decision
  priority : ℤ

/-- The rule list of `DecisionMaker._init_safety_rules` (decision_maker.py,
lines 59-92), in source order. -/
def safety_rules : List SafetyRule :=
  [ { name := "low_battery"
      condition := fun telemetry => decide (telemetry.battery.getD 100 < 20)
      action := ⟨"RTL", [], "Низкий заряд батареи", "critical"⟩
      priority := 100 },
    { name := "critical_battery"
      condition := fun telemetry => decide (telemetry.battery.getD 100 < 10)
      action := ⟨"LAND", [], "Критический заряд батареи", "critical"⟩
      priority := 200 },
    { name := "signal_lost"
      condition := fun telemetry => decide (telemetry.signal_strength.getD 100 < 20)
      action := ⟨"RTL", [], "Потеря сигнала", "high"⟩
      priority := 90 },
    { name := "high_wind"
      condition := fun telemetry => decide (15 < telemetry.wind_speed.getD 0)
      action := ⟨"LAND", [], "Сильный ветер", "high"⟩
      priority := 80 },
    { name := "obstacle_detected"
      condition := fun telemetry => decide (telemetry.obstacle_distance.getD 100 < 5)
      action := ⟨"HOVER", [], "Обнаружено препятствие", "high"⟩
      priority := 85 } ]

/-- One step of a stable descending insertion sort on `priority`; `sortRulesDesc`
models Python's stable `sorted(rules, key=lambda r: r.priority, reverse=True)`
used in `DecisionMaker._check_safety_rules`. -/
def insertRuleDesc (r : SafetyRule) : List SafetyRule → List SafetyRule
  | [] => [r]
  | x :: xs => if x.priority ≤ r.priority then r :: x :: xs else x :: insertRuleDesc r xs

/-- `sorted(self.safety_rules, key=lambda r: r["priority"], reverse=True)`. -/
def sortRulesDesc (rs : List SafetyRule) : List SafetyRule := rs.foldr insertRuleDesc []

/-- `DecisionMaker._check_safety_rules`: sort descending by priority, return the
action of the first rule whose condition holds.  (The Python `try/except` around
a condition call only matters for conditions that raise; the modelled conditions
are total.) -/
def check_safety_rules (telemetry : Telemetry) : Option Decision :=
  (((sortRulesDesc safety_rules).find? fun rule => rule.condition telemetry).map
    fun rule => rule.action)

/-- The comparison of `o.get("distance", float(inf))` keys used by
`min(obstacles, key=lambda o: o.get("distance", float(inf)))`:
`none` stands for the missing key, i.e. `+∞`. -/
def keyLt (a b : Option ℚ) : Bool :=
  match a, b with
  | some x, some y => decide (x < y)
  | some _, none => true
  | none, _ => false

/-- Interpretation of an obstacle's sort key in `WithTop ℚ` (missing key = `⊤`). -/
def keyVal : Option ℚ → WithTop ℚ
  | some q => (q : WithTop ℚ)
  | none => ⊤

/-- `min(obstacles, key=lambda o: o.get("distance", float(inf)))` on the
non-empty list `o :: rest`: Python's `min` keeps the first element among ties,
which the strict-`<` fold reproduces. -/
def closest_obstacle (o : ObstacleP) (rest : List ObstacleP) : ObstacleP :=
  rest.foldl (fun acc x => if keyLt x.distance acc.distance then x else acc) o

/-- Squared norm of the obstacle-relative position vector
(`obs_x**2 + obs_y**2 + obs_z**2` in `_calculate_avoidance_direction`,
whose square root the source takes). -/
def normSq (o : ObstacleP) : ℚ :=
  (o.x.getD 0) ^ 2 + (o.y.getD 0) ^ 2 + (o.z.getD 0) ^ 2

/-- `DecisionMaker._calculate_avoidance_direction`: if the distance
`√(normSq o)` is positive, return `{"x": -obs_x/d, "y": -obs_y/d, "z": 0}`
(kept exactly as numerators over the radicand `normSq o`); otherwise
`{"x": 1, "y": 0, "z": 0}` (radicand 1, so the dict is exact). -/
def calculate_avoidance_direction (obstacle : ObstacleP) : AvoidDir :=
  if sqrtGtB (normSq obstacle) 0 then
    ⟨-(obstacle.x.getD 0), -(obstacle.y.getD 0), 0, normSq obstacle⟩
  else
    ⟨1, 0, 0, 1⟩

/-- `DecisionMaker._handle_obstacles` (decision_maker.py, lines 200-236). -/
def handle_obstacles : List ObstacleP → Option Decision
  | [] => none
  | o :: rest =>
    let closest := closest_obstacle o rest
    let distance := closest.distance.getD 100
    if distance < 3 then
      some ⟨"LAND", [], "Критически близкое препятствие", "critical"⟩
    else if distance < 10 then
      some ⟨"AVOID",
            [("direction", ParamVal.dir (calculate_avoidance_direction closest)),
             ("distance", ParamVal.num 15)],
            "Препятствие", "high"⟩
    else none

/-- View of a waypoint dict as a position dict (both are plain dicts in Python). -/
def wpPos (w : Waypoint) : Pos := ⟨w.x, w.y, w.z⟩

/-- Radicand of `DecisionMaker._calculate_distance` (the source returns
`(dx**2 + dy**2 + dz**2) ** 0.5`; all its uses compare the result to a
threshold and are modelled through `sqrtGtB`/`sqrtLtB`). -/
def calculate_distance_sq (pos1 pos2 : Pos) : ℚ :=
  (pos1.getX - pos2.getX) ^ 2 + (pos1.getY - pos2.getY) ^ 2 + (pos1.getZ - pos2.getZ) ^ 2

/-- `DecisionMaker._find_next_waypoint`: the first waypoint whose distance from
the current position is `> 2.0`. -/
def find_next_waypoint (current_pos : Pos) : List Waypoint → Option Waypoint
  | [] => none
  | wp :: rest =>
    if sqrtGtB (calculate_distance_sq current_pos (wpPos wp)) 2 then some wp
    else find_next_waypoint current_pos rest

/-- `DecisionMaker._navigate_mission` (decision_maker.py, lines 264-315). -/
def navigate_mission (perception : Perception) (mission : MissionParams) : Decision :=
  let telemetry := getTelemetry perception
  let current_pos := telemetry.position.getD posZero
  let waypoints := mission.waypoints
  if waypoints.isEmpty then
    ⟨"HOVER", [], "Нет точек маршрута", "low"⟩
  else
    match find_next_waypoint current_pos waypoints with
    | none => ⟨"RTL", [], "Миссия завершена", "medium"⟩
    | some target =>
      if sqrtLtB (calculate_distance_sq current_pos (wpPos target)) 2 then
        ⟨"WAYPOINT_REACHED", [("waypoint", ParamVal.wp target)], "Достигнута точка", "medium"⟩
      else
        ⟨"GOTO",
         [("x", ParamVal.num (target.x.getD 0)),
          ("y", ParamVal.num (target.y.getD 0)),
          ("z", ParamVal.num (target.z.getD 10)),
          ("speed", ParamVal.num (target.speed.getD 5))],
         "Движение к точке маршрута", "medium"⟩

/-- `DecisionMaker.decide_mission` (decision_maker.py, lines 124-156).
`_navigate_mission` always returns a non-empty (truthy) dict, so the trailing
`HOVER`/"Ожидание команд" fallback of the source is unreachable and the
navigation decision is returned directly. -/
def decide_mission (perception : Perception) (mission : MissionParams) : Decision :=
  let telemetry := getTelemetry perception
  match check_safety_rules telemetry with
  | some safety_decision => safety_decision
  | none =>
    match perception.obstacles with
    | some obstacles =>
      match handle_obstacles obstacles with
      | some obstacle_decision => obstacle_decision
      | none => navigate_mission perception mission
    | none => navigate_mission perception mission

/-- `DecisionMaker.decide_free` (decision_maker.py, lines 158-176). -/
def decide_free (perception : Perception) : Decision :=
  match check_safety_rules (getTelemetry perception) with
  | some safety_decision => safety_decision
  | none => ⟨"HOVER", [], "Свободный полет", "low"⟩

end DecisionMaker

namespace Slom

/-- The `self.thresholds` dict of `SlomTool.__init__` (slom.py, lines 40-51);
the field values are the configured thresholds (defaults in parentheses in the
source: 15, 25, 20, 40, 15, 60, -10, 5, 120, 1000). -/
structure Thresholds where
  battery_critical : ℚ
  battery_low : ℚ
  signal_critical : ℚ
  signal_low : ℚ
  wind_max : ℚ
  temperature_max : ℚ
  temperature_min : ℚ
  obstacle_distance : ℚ
  max_altitude : ℚ
  max_distance : ℚ
deriving DecidableEq

/-- The `self.geofence` dict of `SlomTool` (only the x/y components of
`center` are read by `_check_geofence`). -/
structure Geofence where
  enabled : Bool
  centerX : ℚ
  centerY : ℚ
  radius : ℚ
  max_altitude : ℚ
deriving DecidableEq

/-- The relevant state of a `SlomTool` instance. -/
structure SlomState where
  thresholds : Thresholds
  geofence : Geofence
deriving DecidableEq

/-- An emergency dict returned by `SlomTool.check_emergency` /
`SlomTool._check_geofence` (`message` f-strings elided; `params` is the
numeric params dict, empty everywhere except the DESCEND branch). -/
structure Emergency where
  etype : String
  severity : String
  action : String
  params : List (String × ℚ)
deriving DecidableEq

/-- `SlomTool._check_geofence` (slom.py, lines 194-227): radius breach first
(planar distance from the center), then the altitude check. -/
def check_geofence (g : Geofence) (position : Pos) : Option Emergency :=
  let dx := position.getX - g.centerX
  let dy := position.getY - g.centerY
  -- distance = (dx**2 + dy**2) ** 0.5; `distance > radius`
  if sqrtGtB (dx ^ 2 + dy ^ 2) g.radius then
    some ⟨"geofence_breach", "warning", "RTL", []⟩
  else
    let altitude := position.getZ
    if g.max_altitude < altitude then
      some ⟨"geofence_breach", "warning", "DESCEND", [("altitude", g.max_altitude - 10)]⟩
    else none

/-- `SlomTool.check_emergency` (slom.py, lines 103-192).  The input dict's
`telemetry` key is taken by the caller (`data.get("telemetry", data)`); the
`safety_level` side effects are elided; the `signal_low` branch only sets the
safety level and falls through. -/
def check_emergency (s : SlomState) (telemetry : Telemetry) : Option Emergency :=
  let battery := telemetry.battery.getD 100
  if battery < s.thresholds.battery_critical then
    some ⟨"low_battery", "critical", "LAND", []⟩
  else if battery < s.thresholds.battery_low then
    some ⟨"low_battery", "warning", "RTL", []⟩
  else
    let signal := telemetry.signal_strength.getD 100
    if signal < s.thresholds.signal_critical then
      some ⟨"signal_lost", "critical", "RTL", []⟩
    else
      let obstacle_distance := telemetry.obstacle_distance.getD 100
      if obstacle_distance < s.thresholds.obstacle_distance then
        some ⟨"obstacle_detected", "warning", "HOVER", []⟩
      else
        let geofence_result :=
          if s.geofence.enabled then
            check_geofence s.geofence (telemetry.position.getD posZero)
          else none
        match geofence_result with
        | some e => some e
        | none =>
          let temperature := telemetry.temperature.getD 25
          if s.thresholds.temperature_max < temperature then
            some ⟨"extreme_temperature", "warning", "LAND", []⟩
          else if temperature < s.thresholds.temperature_min then
            some ⟨"extreme_temperature", "warning", "LAND", []⟩
          else none

end Slom

namespace Core

/-- An emergency dict returned by `DroneIntelligentAgent._check_emergency`
(its `data` sub-dict is not read by `_handle_emergency` and is elided). -/
structure CoreEmergency where
  etype : String
  severity : String
deriving DecidableEq

/-- `DroneIntelligentAgent._check_emergency` (core.py, lines 307-319). -/
def check_emergency (perception : Perception) : Option CoreEmergency :=
  let battery := (getTelemetry perception).battery.getD 100
  if battery < 20 then some ⟨"low_battery", "high"⟩
  else
    let signal := (getTelemetry perception).signal_strength.getD 100
    if signal < 30 then some ⟨"signal_lost", "high"⟩
    else none

/-- `DroneIntelligentAgent._handle_emergency` (core.py, lines 321-330). -/
def handle_emergency (emergency : CoreEmergency) : Decision :=
  if emergency.etype = "low_battery" then ⟨"RTL", [], "Низкий заряд батареи", "high"⟩
  else if emergency.etype = "signal_lost" then ⟨"RTL", [], "Потеря сигнала", "high"⟩
  else ⟨"LAND", [], "Неизвестная аварийная ситуация", "high"⟩

/-- `DroneIntelligentAgent._fallback_decision` (core.py, lines 332-334). -/
def fallback_decision : Decision := ⟨"HOVER", [], "Резервный режим", "medium"⟩

/-- The advisory dict returned by `sub_agent.review_decision`. -/
structure Advice where
  suggest_change : Bool
  suggested_command : Option String
  reason : Option String

/-- `DroneIntelligentAgent._merge_decisions` (core.py, lines 531-546). -/
def merge_decisions (decision : Decision) (advice : Advice) : Decision :=
  match advice.suggested_command with
  | some c => { decision with command := c, reason := advice.reason.getD "Рекомендация субагента" }
  | none => decision

/-- The part of `DroneIntelligentAgent.decide` after the Slom check
(core.py, lines 285-302): core emergency check, then mission/free decision,
then the optional sub-agent consultation.  The sub-agent review is an external
call and is modelled as a function into `Except`, whose `error` case stands
for a raised exception (caught by `decide`'s `try/except`). -/
def decide_rest (subEnabled : Bool) (subReview : Decision → Except String Advice)
    (mission : Option MissionParams) (perception : Perception) : Except String Decision :=
  match check_emergency perception with
  | some emergency => .ok (handle_emergency emergency)
  | none =>
    let decision :=
      match mission with
      | some m => DecisionMaker.decide_mission perception m
      | none => DecisionMaker.decide_free perception
    if subEnabled then
      match subReview decision with
      | .ok advice =>
        .ok (if advice.suggest_change then merge_decisions decision advice else decision)
      | .error e => .error e
    else .ok decision

/-- The `try` body of `DroneIntelligentAgent.decide` (core.py, lines 270-302).
`slomTool = none` models an agent whose tool registry has no `"slom"` entry.
The `self.telemetry.update(...)` prologue writes agent state that this call
never reads back and is elided. -/
def decide_body (slomTool : Option Slom.SlomState) (subEnabled : Bool)
    (subReview : Decision → Except String Advice)
    (mission : Option MissionParams) (perception : Perception) : Except String Decision :=
  match slomTool with
  | some s =>
    match Slom.check_emergency s (getTelemetry perception) with
    | some emergency =>
      -- {"command": "RTL", "reason": emergency, "priority": "high"}
      .ok ⟨"RTL", [], emergency.etype, "high"⟩
    | none => decide_rest subEnabled subReview mission perception
  | none => decide_rest subEnabled subReview mission perception

/-- `DroneIntelligentAgent.decide`: the `try/except` wrapper that replaces any
raised exception by `_fallback_decision()`. -/
def decide (slomTool : Option Slom.SlomState) (subEnabled : Bool)
    (subReview : Decision → Except String Advice)
    (mission : Option MissionParams) (perception : Perception) : Decision :=
  match decide_body slomTool subEnabled subReview mission perception with
  | .ok d => d
  | .error _ => fallback_decision

/-- The state update of `DroneIntelligentAgent.act` (core.py, lines 357-361),
performed after a dispatch that did not raise: commands are matched against
the two lists, and any other command leaves the state as it was. -/
def act_state_update (state : AgentState) (command : Option String) : AgentState :=
  if command = some "TAKEOFF" ∨ command = some "GOTO" ∨ command = some "FOLLOW_PATH" then
    .flying
  else if command = some "LAND" ∨ command = some "RTL" then
    .landing
  else state

/-- The mission report built by `DroneIntelligentAgent._complete_mission`
(only the fields the modelled claims read; `events`/`data_collected` and the
timestamps are elided). -/
structure MissionReport where
  mission_id : String
  status : String
  waypoints_completed : ℕ
  total_waypoints : ℕ
deriving DecidableEq

/-- The agent fields touched by `run_mission` and its handlers. -/
structure AgentSt where
  state : AgentState
  current_mission : Option MissionParams
  mission_history : List MissionReport
deriving DecidableEq

/-- Outcome of the waypoint loop of `run_mission`: the waypoints recorded as
completed, the commands dispatched (a `"GOTO"` per attempted waypoint), and
`failure = some e` when a dispatch raised exception `e` (aborting the loop). -/
structure LoopOut where
  completed : List Waypoint
  dispatched : List String
  failure : Option String
deriving DecidableEq

/-- The `for waypoint in mission.waypoints` loop of
`DroneIntelligentAgent.run_mission` (core.py, lines 426-446).  `dispatch`
models `_goto_waypoint`'s command dispatch: `.ok success` is a returned
result dict, `.error e` a raised exception.  The per-waypoint data collection
and the cooperative sleep are external effects and are elided; `state` is the
agent state read by the emergency-interrupt check (nothing in this sequential
model mutates it mid-loop). -/
def mission_loop (dispatch : Waypoint → Except String Bool) (state : AgentState) :
    List Waypoint → LoopOut
  | [] => ⟨[], [], none⟩
  | wp :: rest =>
    if state = .emergency then ⟨[], [], none⟩
    else
      match dispatch wp with
      | .error e => ⟨[], ["GOTO"], some e⟩
      | .ok success =>
        let tail := mission_loop dispatch state rest
        ⟨(if success then [wp] else []) ++ tail.completed,
         "GOTO" :: tail.dispatched,
         tail.failure⟩

/-- `DroneIntelligentAgent.run_mission` (core.py, lines 402-453) together with
`_complete_mission` (481-519) and `_handle_mission_failure` (521-529).
Returns the updated agent fields and the full list of dispatched commands
(the failure handler's `act({"command": "LAND", ...})` appends `"LAND"`).
On failure no report is built: `current_mission` is cleared and the state
reset to `READY`, nothing is appended to `mission_history`. -/
def run_mission (agent : AgentSt) (dispatch : Waypoint → Except String Bool)
    (mission : MissionParams) : AgentSt × List String :=
  let started : AgentSt := { agent with current_mission := some mission, state := .flying }
  let out := mission_loop dispatch started.state mission.waypoints
  match out.failure with
  | some _ =>
    ({ state := .ready, current_mission := none, mission_history := started.mission_history },
     out.dispatched ++ ["LAND"])
  | none =>
    let report : MissionReport :=
      ⟨mission.mission_id, "completed", out.completed.length, mission.waypoints.length⟩
    ({ state := .ready, current_mission := none,
       mission_history := started.mission_history ++ [report] },
     out.dispatched)

end Core

/-! ### Helper lemmas -/

/-- `sqrtGtB` holds whenever the threshold's square is below the radicand. -/
theorem sqrtGtB_true_of_sq_lt (s t : ℚ) (h : t ^ 2 < s) : sqrtGtB s t = true :=
  Bool.or_eq_true_iff.mpr (Or.inr (decide_eq_true h))

/-- If `sqrtGtB s t` holds (the source's `√s > t`), then `sqrtLtB s t`
(the source's `√s < t`) is false. -/
theorem sqrtLtB_false_of_sqrtGtB (s t : ℚ) (h : sqrtGtB s t = true) :
    sqrtLtB s t = false := by
  cases hl : sqrtLtB s t
  · rfl
  · exfalso
    have h1 := (sqrtGtB_iff s t).mp h
    have h2 := (sqrtLtB_iff s t).mp hl
    linarith

/-- A waypoint returned by `find_next_waypoint` is at distance `> 2.0`. -/
theorem find_next_waypoint_spec (current : Pos) :
    ∀ (wps : List Waypoint) (wp : Waypoint),
      DecisionMaker.find_next_waypoint current wps = some wp →
      sqrtGtB (DecisionMaker.calculate_distance_sq current (DecisionMaker.wpPos wp)) 2 = true := by
  intro wps
  induction wps with
  | nil =>
    intro wp h
    simp [DecisionMaker.find_next_waypoint] at h
  | cons w rest ih =>
    intro wp h
    by_cases hc : sqrtGtB (DecisionMaker.calculate_distance_sq current (DecisionMaker.wpPos w)) 2 = true
    · rw [DecisionMaker.find_next_waypoint, if_pos hc] at h
      cases h
      exact hc
    · rw [DecisionMaker.find_next_waypoint, if_neg hc] at h
      exact ih wp h

/-- The sorted rule list of `_check_safety_rules`, computed once:
`critical_battery (200), low_battery (100), signal_lost (90),
obstacle_detected (85), high_wind (80)`. -/
theorem sortRulesDesc_safety_rules :
    DecisionMaker.sortRulesDesc DecisionMaker.safety_rules =
      [ { name := "critical_battery"
          condition := fun telemetry => decide (telemetry.battery.getD 100 < 10)
          action := ⟨"LAND", [], "Критический заряд батареи", "critical"⟩
          priority := 200 },
        { name := "low_battery"
          condition := fun telemetry => decide (telemetry.battery.getD 100 < 20)
          action := ⟨"RTL", [], "Низкий заряд батареи", "critical"⟩
          priority := 100 },
        { name := "signal_lost"
          condition := fun telemetry => decide (telemetry.signal_strength.getD 100 < 20)
          action := ⟨"RTL", [], "Потеря сигнала", "high"⟩
          priority := 90 },
        { name := "obstacle_detected"
          condition := fun telemetry => decide (telemetry.obstacle_distance.getD 100 < 5)
          action := ⟨"HOVER", [], "Обнаружено препятствие", "high"⟩
          priority := 85 },
        { name := "high_wind"
          condition := fun telemetry => decide (15 < telemetry.wind_speed.getD 0)
          action := ⟨"LAND", [], "Сильный ветер", "high"⟩
          priority := 80 } ] := rfl

/-- `keyLt` decides the strict order of obstacle sort keys in `WithTop ℚ`
(missing `distance` = `⊤`, i.e. `float(inf)`). -/
theorem keyLt_iff (a b : Option ℚ) :
    DecisionMaker.keyLt a b = true ↔ DecisionMaker.keyVal a < DecisionMaker.keyVal b := by
  cases a <;> cases b <;>
    simp [DecisionMaker.keyLt, DecisionMaker.keyVal, WithTop.coe_lt_coe, WithTop.coe_lt_top]

/-! ### Claim theorems -/

/-- C1, counterexample: the claim says every (state, command) pair not listed
in the transition table of spec §4.5 is a no-op, in particular that
`(EMERGENCY, TAKEOFF)` leaves the state `EMERGENCY`.  In the code the state
update of `act` ignores the current state: `(EMERGENCY, TAKEOFF)` yields
`FLYING`, not `EMERGENCY`. -/
theorem C1_counterexample :
    Core.act_state_update AgentState.emergency (some "TAKEOFF") = AgentState.flying ∧
    AgentState.flying ≠ AgentState.emergency := by
  constructor
  · rfl
  · decide

/-- C1, amended: the state update of `act` is a total function of the command
alone, ignoring the current state: any command outside
`{TAKEOFF, GOTO, FOLLOW_PATH, LAND, RTL}` (including a missing command) leaves
the state unchanged, while `TAKEOFF`/`GOTO`/`FOLLOW_PATH` always yield `FLYING`
and `LAND`/`RTL` always yield `LANDING`, from every state — so
`(EMERGENCY, TAKEOFF)` yields `FLYING`. -/
theorem C1_act_transition_amended (s : AgentState) (c : Option String)
    (h1 : c ≠ some "TAKEOFF") (h2 : c ≠ some "GOTO") (h3 : c ≠ some "FOLLOW_PATH")
    (h4 : c ≠ some "LAND") (h5 : c ≠ some "RTL") :
    Core.act_state_update s c = s ∧
    Core.act_state_update s (some "TAKEOFF") = AgentState.flying ∧
    Core.act_state_update s (some "GOTO") = AgentState.flying ∧
    Core.act_state_update s (some "FOLLOW_PATH") = AgentState.flying ∧
    Core.act_state_update s (some "LAND") = AgentState.landing ∧
    Core.act_state_update s (some "RTL") = AgentState.landing := by
  refine ⟨?_, rfl, rfl, rfl, rfl, rfl⟩
  unfold Core.act_state_update
  rw [if_neg, if_neg]
  · rintro (h | h) <;> [exact h4 h; exact h5 h]
  · rintro (h | h | h) <;> [exact h1 h; exact h2 h; exact h3 h]

/-- C1, witness: the no-op default at the concrete pair `(EMERGENCY, HOVER)`. -/
theorem C1_act_transition_amended_witness :
    Core.act_state_update AgentState.emergency (some "HOVER") = AgentState.emergency :=
  (C1_act_transition_amended AgentState.emergency (some "HOVER")
    (by decide) (by decide) (by decide) (by decide) (by decide)).1

/-- C3: for every telemetry snapshot whose `battery` value (default 100) is
below 10, `_check_safety_rules` — the rules sorted descending by priority,
short-circuiting on the first match — returns the `critical_battery` action:
`LAND` with priority `critical`, regardless of all other telemetry fields. -/
theorem C3_battery_critical_dominance (t : Telemetry)
    (h : t.battery.getD 100 < 10) :
    DecisionMaker.check_safety_rules t =
      some ⟨"LAND", [], "Критический заряд батареи", "critical"⟩ := by
  unfold DecisionMaker.check_safety_rules
  rw [sortRulesDesc_safety_rules]
  rw [List.find?_cons_of_pos _ (by simpa using decide_eq_true h)]
  rfl

/-- C3, witness: a snapshot with battery 5 and hostile values in every other
field still yields `LAND`/`critical`. -/
theorem C3_battery_critical_dominance_witness :
    (((⟨none, some 5, some 0, some 100, some 1, some 200⟩ : Telemetry).battery.getD 100 < 10) ∧
      DecisionMaker.check_safety_rules ⟨none, some 5, some 0, some 100, some 1, some 200⟩ =
        some ⟨"LAND", [], "Критический заряд батареи", "critical"⟩) :=
  ⟨by norm_num, C3_battery_critical_dominance _ (by norm_num)⟩

/-- C4: `decide` is total from the caller's perspective: whenever the `try`
body (`decide_body`) ends in a raised exception, `decide` returns the
fallback decision, which is well-formed with command `HOVER` and priority
`medium`; no exception propagates (`decide` returns a `Decision`, not an
`Except`). -/
theorem C4_decide_total_fallback (slomTool : Option Slom.SlomState) (subEnabled : Bool)
    (subReview : Decision → Except String Core.Advice)
    (mission : Option MissionParams) (perception : Perception) :
    (∀ e, Core.decide_body slomTool subEnabled subReview mission perception = .error e →
        Core.decide slomTool subEnabled subReview mission perception = Core.fallback_decision) ∧
    Core.fallback_decision.command = "HOVER" ∧
    Core.fallback_decision.priority = "medium" := by
  refine ⟨?_, rfl, rfl⟩
  intro e he
  unfold Core.decide
  rw [he]

/-- C4, witness: a sub-agent review that raises makes `decide` return the
`HOVER`/`medium` fallback. -/
theorem C4_decide_total_fallback_witness :
    Core.decide_body none true (fun _ => Except.error "boom") none ⟨none, none⟩ =
      Except.error "boom" ∧
    Core.decide none true (fun _ => Except.error "boom") none ⟨none, none⟩ =
      Core.fallback_decision :=
  ⟨rfl,
   (C4_decide_total_fallback none true (fun _ => Except.error "boom") none ⟨none, none⟩).1
     "boom" rfl⟩

/-- C8: for an obstacle whose relative position vector has norm exactly 0,
`_calculate_avoidance_direction` returns the direction dict
`{"x": 1, "y": 0, "z": 0}` (radicand 1), and its interpretation over `ℝ`
is exactly `(1, 0, 0)` with a non-zero denominator `√1` — no division by
zero occurs. -/
theorem C8_zero_vector_safety (o : ObstacleP) (h : DecisionMaker.normSq o = 0) :
    DecisionMaker.calculate_avoidance_direction o = ⟨1, 0, 0, 1⟩ ∧
    Real.sqrt ((1 : ℚ) : ℝ) ≠ 0 ∧
    ((1 : ℚ) : ℝ) / Real.sqrt ((1 : ℚ) : ℝ) = 1 ∧
    ((0 : ℚ) : ℝ) / Real.sqrt ((1 : ℚ) : ℝ) = 0 := by
  have hb : sqrtGtB (DecisionMaker.normSq o) 0 = false := by
    rw [h]
    rfl
  refine ⟨?_, by norm_num, by norm_num, by norm_num⟩
  unfold DecisionMaker.calculate_avoidance_direction
  rw [hb]
  rfl

/-- C8, witness: an obstacle exactly at the agent's position. -/
theorem C8_zero_vector_safety_witness :
    DecisionMaker.normSq ⟨none, some 0, some 0, some 0⟩ = 0 ∧
    DecisionMaker.calculate_avoidance_direction ⟨none, some 0, some 0, some 0⟩ = ⟨1, 0, 0, 1⟩ :=
  ⟨by norm_num [DecisionMaker.normSq],
   (C8_zero_vector_safety ⟨none, some 0, some 0, some 0⟩ (by norm_num [DecisionMaker.normSq])).1⟩

/-- C10: for every perception and mission, `_navigate_mission` returns a
decision whose command is `HOVER`, `RTL` or `GOTO` — never
`WAYPOINT_REACHED`, because `_find_next_waypoint` only returns waypoints at
distance `> 2.0`, making the `distance < 2.0` branch unreachable. -/
theorem C10_waypoint_reached_unreachable (perception : Perception) (mission : MissionParams) :
    ((DecisionMaker.navigate_mission perception mission).command = "HOVER" ∨
     (DecisionMaker.navigate_mission perception mission).command = "RTL" ∨
     (DecisionMaker.navigate_mission perception mission).command = "GOTO") ∧
    (DecisionMaker.navigate_mission perception mission).command ≠ "WAYPOINT_REACHED" := by
  have key : (DecisionMaker.navigate_mission perception mission).command = "HOVER" ∨
      (DecisionMaker.navigate_mission perception mission).command = "RTL" ∨
      (DecisionMaker.navigate_mission perception mission).command = "GOTO" := by
    unfold DecisionMaker.navigate_mission
    dsimp only
    split
    · exact Or.inl rfl
    · split
      · exact Or.inr (Or.inl rfl)
      · rename_i target hf
        split
        · rename_i hlt
          have hgt := find_next_waypoint_spec _ _ _ hf
          rw [sqrtLtB_false_of_sqrtGtB _ _ hgt] at hlt
          exact absurd hlt (by decide)
        · exact Or.inr (Or.inr rfl)
  refine ⟨key, ?_⟩
  rcases key with h | h | h <;> rw [h] <;> decide

/-- C10, witness: the navigation result at a concrete position and mission is
not `WAYPOINT_REACHED`. -/
theorem C10_waypoint_reached_unreachable_witness :
    (DecisionMaker.navigate_mission
        ⟨some ⟨some ⟨some 0, some 0, some 0⟩, none, none, none, none, none⟩, none⟩
        ⟨"mission", "m3", [⟨some 1, some 0, some 0, none⟩], 50, 10, 5000, true, false⟩).command ≠
      "WAYPOINT_REACHED" :=
  (C10_waypoint_reached_unreachable
    ⟨some ⟨some ⟨some 0, some 0, some 0⟩, none, none, none, none, none⟩, none⟩
    ⟨"mission", "m3", [⟨some 1, some 0, some 0, none⟩], 50, 10, 5000, true, false⟩).2

/-- C2, counterexample: the claim says a battery of 5 during an active mission
makes the next `decide` return `RTL` with priority `critical`.  At this
concrete input the code returns `RTL` with priority `high` — both paths that
can fire (`slom.check_emergency` and `_check_emergency`) are wrapped into a
`"priority": "high"` decision — so the priority part of the claim is false. -/
theorem C2_counterexample :
    (Core.decide none false (fun _ => Except.ok ⟨false, none, none⟩)
        (some ⟨"mission", "m1",
          [⟨some 0, some 0, some 10, none⟩, ⟨some 10, some 0, some 10, none⟩,
           ⟨some 20, some 0, some 10, none⟩], 50, 10, 5000, true, false⟩)
        ⟨some ⟨none, some 5, none, none, none, none⟩, none⟩).command = "RTL" ∧
    (Core.decide none false (fun _ => Except.ok ⟨false, none, none⟩)
        (some ⟨"mission", "m1",
          [⟨some 0, some 0, some 10, none⟩, ⟨some 10, some 0, some 10, none⟩,
           ⟨some 20, some 0, some 10, none⟩], 50, 10, 5000, true, false⟩)
        ⟨some ⟨none, some 5, none, none, none, none⟩, none⟩).priority = "high" ∧
    "high" ≠ "critical" := by
  refine ⟨rfl, rfl, by decide⟩

/-- C2, amended: during an active mission, a perception whose telemetry has
`battery = 5` makes `decide` return `RTL` with priority `high` (not
`critical`), overriding mission navigation — for every Slom configuration
(or no Slom tool at all), sub-agent configuration and mission. -/
theorem C2_safety_preempts_mission_amended
    (slomTool : Option Slom.SlomState) (subEnabled : Bool)
    (subReview : Decision → Except String Core.Advice)
    (m : MissionParams) (p : Perception)
    (hb : (getTelemetry p).battery = some 5) :
    (Core.decide slomTool subEnabled subReview (some m) p).command = "RTL" ∧
    (Core.decide slomTool subEnabled subReview (some m) p).priority = "high" := by
  have hcore : Core.check_emergency p = some ⟨"low_battery", "high"⟩ := by
    unfold Core.check_emergency
    dsimp only
    rw [hb, Option.getD_some, if_pos (by norm_num : (5 : ℚ) < 20)]
  have hrest : Core.decide_rest subEnabled subReview (some m) p =
      .ok ⟨"RTL", [], "Низкий заряд батареи", "high"⟩ := by
    unfold Core.decide_rest
    rw [hcore]
    rfl
  have e2 : ∀ s : Slom.SlomState, Core.decide_body (some s) subEnabled subReview (some m) p =
      (match Slom.check_emergency s (getTelemetry p) with
       | some emergency => .ok ⟨"RTL", [], emergency.etype, "high"⟩
       | none => Core.decide_rest subEnabled subReview (some m) p) := fun _ => rfl
  have hbody : ∃ r, Core.decide_body slomTool subEnabled subReview (some m) p = .ok r ∧
      r.command = "RTL" ∧ r.priority = "high" := by
    cases slomTool with
    | none => exact ⟨_, hrest, rfl, rfl⟩
    | some s =>
      rw [e2 s]
      cases hs : Slom.check_emergency s (getTelemetry p) with
      | some emergency => exact ⟨⟨"RTL", [], emergency.etype, "high"⟩, rfl, rfl, rfl⟩
      | none => exact ⟨_, hrest, rfl, rfl⟩
  obtain ⟨r, hr, hc, hp⟩ := hbody
  unfold Core.decide
  rw [hr]
  exact ⟨hc, hp⟩

/-- C2, witness: the amended statement at a concrete mission/perception, with
a Slom tool configured with the source's default thresholds. -/
theorem C2_safety_preempts_mission_amended_witness :
    (getTelemetry ⟨some ⟨none, some 5, none, none, none, none⟩, none⟩).battery = some 5 ∧
    (Core.decide (some ⟨⟨15, 25, 20, 40, 15, 60, -10, 5, 120, 1000⟩, ⟨true, 0, 0, 500, 120⟩⟩)
        false (fun _ => Except.ok ⟨false, none, none⟩)
        (some ⟨"mission", "m2", [⟨some 0, some 0, some 10, none⟩], 50, 10, 5000, true, false⟩)
        ⟨some ⟨none, some 5, none, none, none, none⟩, none⟩).command = "RTL" ∧
    (Core.decide (some ⟨⟨15, 25, 20, 40, 15, 60, -10, 5, 120, 1000⟩, ⟨true, 0, 0, 500, 120⟩⟩)
        false (fun _ => Except.ok ⟨false, none, none⟩)
        (some ⟨"mission", "m2", [⟨some 0, some 0, some 10, none⟩], 50, 10, 5000, true, false⟩)
        ⟨some ⟨none, some 5, none, none, none, none⟩, none⟩).priority = "high" :=
  ⟨rfl,
   (C2_safety_preempts_mission_amended
      (some ⟨⟨15, 25, 20, 40, 15, 60, -10, 5, 120, 1000⟩, ⟨true, 0, 0, 500, 120⟩⟩)
      false (fun _ => Except.ok ⟨false, none, none⟩)
      ⟨"mission", "m2", [⟨some 0, some 0, some 10, none⟩], 50, 10, 5000, true, false⟩
      ⟨some ⟨none, some 5, none, none, none, none⟩, none⟩ rfl).1,
   (C2_safety_preempts_mission_amended
      (some ⟨⟨15, 25, 20, 40, 15, 60, -10, 5, 120, 1000⟩, ⟨true, 0, 0, 500, 120⟩⟩)
      false (fun _ => Except.ok ⟨false, none, none⟩)
      ⟨"mission", "m2", [⟨some 0, some 0, some 10, none⟩], 50, 10, 5000, true, false⟩
      ⟨some ⟨none, some 5, none, none, none, none⟩, none⟩ rfl).2⟩

/-- C5, counterexample: the claim says the mission failure handler marks the
mission failed in a report/failure record visible to the caller.  At this
concrete input the dispatch of the only waypoint raises, the loop fails, and
`run_mission` leaves `mission_history` empty and returns an agent carrying no
failure record at all (only the state reset and the LAND dispatch happen). -/
theorem C5_counterexample :
    (Core.mission_loop (fun _ => Except.error "boom") AgentState.flying
        [⟨some 0, some 0, some 10, none⟩]).failure = some "boom" ∧
    Core.run_mission ⟨AgentState.ready, none, []⟩ (fun _ => Except.error "boom")
        ⟨"mission", "m1", [⟨some 0, some 0, some 10, none⟩], 50, 10, 5000, true, false⟩ =
      (⟨AgentState.ready, none, []⟩, ["GOTO", "LAND"]) :=
  ⟨rfl, rfl⟩

/-- C5, amended: on any exception raised in the waypoint loop, `run_mission`
absorbs it (it is a total function), dispatches a final `LAND`, clears the
current mission and resets the state to `READY` — but produces no failure
report or record: `mission_history` is exactly what it was before the run. -/
theorem C5_mission_fault_amended (agent : Core.AgentSt)
    (dispatch : Waypoint → Except String Bool) (m : MissionParams) (e : String)
    (h : (Core.mission_loop dispatch AgentState.flying m.waypoints).failure = some e) :
    Core.run_mission agent dispatch m =
      (⟨AgentState.ready, none, agent.mission_history⟩,
       (Core.mission_loop dispatch AgentState.flying m.waypoints).dispatched ++ ["LAND"]) := by
  unfold Core.run_mission
  dsimp only
  rw [h]

/-- C5, witness: the amended statement at a concrete failing mission. -/
theorem C5_mission_fault_amended_witness :
    (Core.mission_loop (fun _ => Except.error "crash") AgentState.flying
        [⟨some 1, some 2, some 3, none⟩]).failure = some "crash" ∧
    Core.run_mission ⟨AgentState.flying, none, [⟨"old", "completed", 1, 1⟩]⟩
        (fun _ => Except.error "crash")
        ⟨"task", "t1", [⟨some 1, some 2, some 3, none⟩], 50, 10, 5000, false, false⟩ =
      (⟨AgentState.ready, none, [⟨"old", "completed", 1, 1⟩]⟩, ["GOTO", "LAND"]) := by
  refine ⟨rfl, ?_⟩
  rw [C5_mission_fault_amended ⟨AgentState.flying, none, [⟨"old", "completed", 1, 1⟩]⟩
    (fun _ => Except.error "crash")
    ⟨"task", "t1", [⟨some 1, some 2, some 3, none⟩], 50, 10, 5000, false, false⟩ "crash" rfl]
  rfl

/-- C6, counterexample: the claim says that for `3 ≤ distance < 10` the AVOID
decision's direction is the negated normalized obstacle-relative position
including its z component, a unit vector.  For the obstacle at `(0, 0, 5)`
with given distance 7 the code produces the direction dict `(0, 0, 0)`
(numerators `(0, 0, 0)` over `√25`): its z component is `0`, whereas the
negated normalized z component is `-5/√25 = -1 ≠ 0`, and the produced vector
has squared norm `0 ≠ 1`, so it is not a unit vector. -/
theorem C6_counterexample :
    DecisionMaker.handle_obstacles [⟨some 7, some 0, some 0, some 5⟩] =
      some ⟨"AVOID",
        [("direction", ParamVal.dir ⟨0, 0, 0, 25⟩), ("distance", ParamVal.num 15)],
        "Препятствие", "high"⟩ ∧
    ((0 : ℚ) : ℝ) / Real.sqrt ((25 : ℚ) : ℝ) = 0 ∧
    -(((5 : ℚ)) : ℝ) / Real.sqrt ((25 : ℚ) : ℝ) = -1 ∧
    (0 : ℝ) ≠ -1 ∧
    (0 : ℝ) ^ 2 + (0 : ℝ) ^ 2 + (0 : ℝ) ^ 2 ≠ 1 := by
  have hdir : DecisionMaker.calculate_avoidance_direction ⟨some 7, some 0, some 0, some 5⟩ =
      ⟨0, 0, 0, 25⟩ := by
    unfold DecisionMaker.calculate_avoidance_direction
    rw [sqrtGtB_true_of_sq_lt _ _ (by norm_num [DecisionMaker.normSq] : (0 : ℚ) ^ 2 <
      DecisionMaker.normSq ⟨some 7, some 0, some 0, some 5⟩)]
    norm_num [DecisionMaker.normSq]
  refine ⟨?_, by norm_num, ?_, by norm_num, by norm_num⟩
  · unfold DecisionMaker.handle_obstacles
    dsimp only [DecisionMaker.closest_obstacle, List.foldl]
    rw [Option.getD_some, if_neg (by norm_num : ¬(7 : ℚ) < 3),
      if_pos (by norm_num : (7 : ℚ) < 10), hdir]
  · have h25 : ((25 : ℚ) : ℝ) = (5 : ℝ) ^ 2 := by norm_num
    rw [h25, Real.sqrt_sq (by norm_num : (0 : ℝ) ≤ 5)]
    norm_num

/-- C6, amended: for every obstacle with a given distance `d`, `3 ≤ d < 10`,
and a non-zero relative position vector, `_handle_obstacles` returns an
`AVOID` decision with priority `high`, `params.distance = 15`, and a
direction whose x/y components are the negated normalized planar components
`(-x/√s, -y/√s)` of the relative position, but whose z component is `0`
(altitude preserved) — so the direction is unit length only when the
relative z component is zero. -/
theorem C6_obstacle_avoid_amended (o : ObstacleP) (d : ℚ)
    (hd : o.distance = some d) (h3 : 3 ≤ d) (h10 : d < 10)
    (hn : DecisionMaker.normSq o ≠ 0) :
    DecisionMaker.handle_obstacles [o] =
      some ⟨"AVOID",
        [("direction",
          ParamVal.dir ⟨-(o.x.getD 0), -(o.y.getD 0), 0, DecisionMaker.normSq o⟩),
         ("distance", ParamVal.num 15)],
        "Препятствие", "high"⟩ ∧
    ((0 : ℚ) : ℝ) / Real.sqrt ((DecisionMaker.normSq o : ℚ) : ℝ) = 0 := by
  have hpos : (0 : ℚ) < DecisionMaker.normSq o := by
    have h0 : (0 : ℚ) ≤ DecisionMaker.normSq o := by
      unfold DecisionMaker.normSq
      positivity
    rcases lt_or_eq_of_le h0 with h | h
    · exact h
    · exact absurd h.symm hn
  have hb : sqrtGtB (DecisionMaker.normSq o) 0 = true :=
    sqrtGtB_true_of_sq_lt _ _ (by simpa using hpos)
  have hdir : DecisionMaker.calculate_avoidance_direction o =
      ⟨-(o.x.getD 0), -(o.y.getD 0), 0, DecisionMaker.normSq o⟩ := by
    unfold DecisionMaker.calculate_avoidance_direction
    rw [hb]
    rfl
  refine ⟨?_, by simp⟩
  unfold DecisionMaker.handle_obstacles
  dsimp only [DecisionMaker.closest_obstacle, List.foldl]
  rw [hd, Option.getD_some]
  rw [if_neg (not_lt.mpr h3), if_pos h10, hdir]

/-- C6, witness: the amended statement at the obstacle `(1, 2, 2)` with
given distance 7 (squared norm 9). -/
theorem C6_obstacle_avoid_amended_witness :
    (⟨some 7, some 1, some 2, some 2⟩ : ObstacleP).distance = some 7 ∧
    DecisionMaker.handle_obstacles [⟨some 7, some 1, some 2, some 2⟩] =
      some ⟨"AVOID",
        [("direction", ParamVal.dir ⟨-1, -2, 0, 9⟩), ("distance", ParamVal.num 15)],
        "Препятствие", "high"⟩ := by
  refine ⟨rfl, ?_⟩
  have h := (C6_obstacle_avoid_amended ⟨some 7, some 1, some 2, some 2⟩ 7 rfl
    (by norm_num) (by norm_num) (by norm_num [DecisionMaker.normSq])).1
  rw [h]
  norm_num [DecisionMaker.normSq, Option.getD_some]

/-- C7, counterexample: the claim says the closest-obstacle selection uses the
given distance or, when absent, the Euclidean norm to the agent.  At this
concrete input the obstacle without a `distance` key sits exactly at the
agent (claim-distance `√0 = 0`), yet the code selects the other obstacle,
whose given distance is 50 — missing distances are treated as `float(inf)`,
not as the Euclidean norm. -/
theorem C7_counterexample :
    DecisionMaker.closest_obstacle ⟨none, some 0, some 0, some 0⟩
        [⟨some 50, some 3, some 4, some 0⟩] = ⟨some 50, some 3, some 4, some 0⟩ ∧
    (⟨none, some 0, some 0, some 0⟩ : ObstacleP).distance = none ∧
    Real.sqrt ((DecisionMaker.normSq ⟨none, some 0, some 0, some 0⟩ : ℚ) : ℝ) = 0 ∧
    (0 : ℝ) < 50 := by
  refine ⟨rfl, rfl, ?_, by norm_num⟩
  have h0 : DecisionMaker.normSq (⟨none, some 0, some 0, some 0⟩ : ObstacleP) = 0 := by
    norm_num [DecisionMaker.normSq]
  rw [h0]
  simp

/-- C7, amended: for every non-empty obstacle list, the selected obstacle is a
member of the list and minimizes the sort key actually used by the code:
the given `distance` value, with a missing `distance` treated as `+∞`
(`float(inf)`), never the Euclidean norm. -/
theorem C7_closest_selection_amended (o : ObstacleP) (rest : List ObstacleP) :
    DecisionMaker.closest_obstacle o rest ∈ o :: rest ∧
    ∀ o2 ∈ o :: rest,
      DecisionMaker.keyVal (DecisionMaker.closest_obstacle o rest).distance ≤
        DecisionMaker.keyVal o2.distance := by
  induction rest generalizing o with
  | nil =>
    refine ⟨List.mem_cons_self _ _, ?_⟩
    intro o2 h2
    rcases List.mem_cons.mp h2 with h | h
    · rw [h]
      exact le_of_eq rfl
    · exact absurd h (List.not_mem_nil _)
  | cons x xs ih =>
    by_cases hk : DecisionMaker.keyLt x.distance o.distance = true
    · have hstep : DecisionMaker.closest_obstacle o (x :: xs) =
          DecisionMaker.closest_obstacle x xs := by
        unfold DecisionMaker.closest_obstacle
        rw [List.foldl_cons]
        rw [if_pos hk]
      obtain ⟨ihmem, ihmin⟩ := ih x
      refine ⟨?_, ?_⟩
      · rw [hstep]
        rcases List.mem_cons.mp ihmem with h | h
        · rw [h]
          exact List.mem_cons_of_mem _ (List.mem_cons_self _ _)
        · exact List.mem_cons_of_mem _ (List.mem_cons_of_mem _ h)
      · intro o2 h2
        rw [hstep]
        have hxle := ihmin x (List.mem_cons_self _ _)
        rcases List.mem_cons.mp h2 with h | h
        · rw [h]
          exact le_trans hxle (le_of_lt ((keyLt_iff _ _).mp hk))
        · rcases List.mem_cons.mp h with h | h
          · rw [h]
            exact hxle
          · exact ihmin o2 (List.mem_cons_of_mem _ h)
    · have hstep : DecisionMaker.closest_obstacle o (x :: xs) =
          DecisionMaker.closest_obstacle o xs := by
        unfold DecisionMaker.closest_obstacle
        rw [List.foldl_cons]
        rw [if_neg hk]
      obtain ⟨ihmem, ihmin⟩ := ih o
      refine ⟨?_, ?_⟩
      · rw [hstep]
        rcases List.mem_cons.mp ihmem with h | h
        · rw [h]
          exact List.mem_cons_self _ _
        · exact List.mem_cons_of_mem _ (List.mem_cons_of_mem _ h)
      · intro o2 h2
        rw [hstep]
        have hole := ihmin o (List.mem_cons_self _ _)
        rcases List.mem_cons.mp h2 with h | h
        · rw [h]
          exact hole
        · rcases List.mem_cons.mp h with h | h
          · rw [h]
            refine le_trans hole (le_of_not_lt fun hlt => hk ((keyLt_iff _ _).mpr hlt))
          · exact ihmin o2 (List.mem_cons_of_mem _ h)

/-- C7, witness: the amended statement instantiated on a concrete list of
three obstacles (given distances 4 and 2, plus one with no distance). -/
theorem C7_closest_selection_amended_witness :
    DecisionMaker.closest_obstacle ⟨some 4, none, none, none⟩
        [⟨some 2, none, none, none⟩, ⟨none, none, none, none⟩] ∈
      [(⟨some 4, none, none, none⟩ : ObstacleP), ⟨some 2, none, none, none⟩,
       ⟨none, none, none, none⟩] ∧
    DecisionMaker.keyVal (DecisionMaker.closest_obstacle ⟨some 4, none, none, none⟩
        [⟨some 2, none, none, none⟩, ⟨none, none, none, none⟩]).distance ≤
      DecisionMaker.keyVal ((⟨some 4, none, none, none⟩ : ObstacleP)).distance :=
  ⟨(C7_closest_selection_amended ⟨some 4, none, none, none⟩
      [⟨some 2, none, none, none⟩, ⟨none, none, none, none⟩]).1,
   (C7_closest_selection_amended ⟨some 4, none, none, none⟩
      [⟨some 2, none, none, none⟩, ⟨none, none, none, none⟩]).2
     ⟨some 4, none, none, none⟩ (List.mem_cons_self _ _)⟩

/-- C9: for every geofence configuration and position, `_check_geofence`
returns the `RTL` breach whenever the planar distance from the configured
center exceeds the configured radius, and, when the position is within the
radius but the altitude exceeds `max_altitude`, returns a `DESCEND` whose
target altitude parameter is exactly `max_altitude - 10`. -/
theorem C9_geofence_check (g : Slom.Geofence) (pos : Pos) :
    (((g.radius : ℝ) <
        Real.sqrt (((pos.getX - g.centerX) ^ 2 + (pos.getY - g.centerY) ^ 2 : ℚ) : ℝ)) →
      Slom.check_geofence g pos = some ⟨"geofence_breach", "warning", "RTL", []⟩) ∧
    ((Real.sqrt (((pos.getX - g.centerX) ^ 2 + (pos.getY - g.centerY) ^ 2 : ℚ) : ℝ) ≤
        (g.radius : ℝ)) →
      g.max_altitude < pos.getZ →
      Slom.check_geofence g pos =
        some ⟨"geofence_breach", "warning", "DESCEND", [("altitude", g.max_altitude - 10)]⟩) := by
  constructor
  · intro h
    have hb : sqrtGtB ((pos.getX - g.centerX) ^ 2 + (pos.getY - g.centerY) ^ 2) g.radius =
        true := (sqrtGtB_iff _ _).mpr h
    unfold Slom.check_geofence
    dsimp only
    rw [hb]
    rfl
  · intro h hz
    have hb : sqrtGtB ((pos.getX - g.centerX) ^ 2 + (pos.getY - g.centerY) ^ 2) g.radius =
        false := (sqrtGtB_false_iff _ _).mpr h
    unfold Slom.check_geofence
    dsimp only
    rw [hb, if_neg (by decide), if_pos hz]

/-- C9, witness: for the geofence centered at the origin with radius 500 and
max altitude 120, the position `(600, 0, 0)` triggers `RTL` and the position
`(0, 0, 130)` triggers `DESCEND` with target altitude `120 - 10`. -/
theorem C9_geofence_check_witness :
    Slom.check_geofence ⟨true, 0, 0, 500, 120⟩ ⟨some 600, some 0, some 0⟩ =
      some ⟨"geofence_breach", "warning", "RTL", []⟩ ∧
    Slom.check_geofence ⟨true, 0, 0, 500, 120⟩ ⟨some 0, some 0, some 130⟩ =
      some ⟨"geofence_breach", "warning", "DESCEND", [("altitude", (120 : ℚ) - 10)]⟩ := by
  constructor
  · apply (C9_geofence_check ⟨true, 0, 0, 500, 120⟩ ⟨some 600, some 0, some 0⟩).1
    have e1 : ((⟨some 600, some 0, some 0⟩ : Pos).getX -
          (⟨true, 0, 0, 500, 120⟩ : Slom.Geofence).centerX) ^ 2 +
        ((⟨some 600, some 0, some 0⟩ : Pos).getY -
          (⟨true, 0, 0, 500, 120⟩ : Slom.Geofence).centerY) ^ 2 = (360000 : ℚ) := by
      norm_num [Pos.getX, Pos.getY]
    rw [e1]
    have e2 : ((360000 : ℚ) : ℝ) = (600 : ℝ) ^ 2 := by norm_num
    rw [e2, Real.sqrt_sq (by norm_num : (0 : ℝ) ≤ 600)]
    norm_num
  · apply (C9_geofence_check ⟨true, 0, 0, 500, 120⟩ ⟨some 0, some 0, some 130⟩).2
    · have e1 : ((⟨some 0, some 0, some 130⟩ : Pos).getX -
            (⟨true, 0, 0, 500, 120⟩ : Slom.Geofence).centerX) ^ 2 +
          ((⟨some 0, some 0, some 130⟩ : Pos).getY -
            (⟨true, 0, 0, 500, 120⟩ : Slom.Geofence).centerY) ^ 2 = (0 : ℚ) := by
        norm_num [Pos.getX, Pos.getY]
      rw [e1]
      have e2 : ((0 : ℚ) : ℝ) = 0 := by norm_num
      rw [e2, Real.sqrt_zero]
      norm_num
    · norm_num [Pos.getZ]

end DroneAgent
